import Mathlib

/-!
Shallow embedding of the payment-router orchestration core:
`crates/router/src/core/payments/operations/payment_confirm.rs` (the Confirm
operation's GetTracker, UpdateTracker and ValidateRequest stages) and
`crates/router/src/core/payments/flows/cancel_flow.rs` (the Cancel flow's
dispatcher).  Repository lookups and helper functions that live outside the
embedded files are passed in as environment functions; every repository
access and connector call performed by the embedded code is recorded in an
explicit event trace so that ordering and absence-of-effect properties can be
stated.
-/

namespace Hyperswitch

/-- Overall status of a payment intent (`enums::IntentStatus`). -/
inductive IntentStatus
  | requiresPaymentMethod
  | requiresConfirmation
  | requiresCustomerAction
  | processing
  | succeeded
  | failed
deriving Repr, DecidableEq

/-- Status of one payment attempt (`enums::AttemptStatus`). -/
inductive AttemptStatus
  | started
  | pending
  | pendingVbv
  | charged
  | failure
  | voidInitiated
deriving Repr, DecidableEq

/-- Authentication type carried on a payment attempt (`enums::AuthenticationType`). -/
inductive AuthenticationType
  | threeDs
  | noThreeDs
deriving Repr, DecidableEq

/-- Payment method kind (`enums::PaymentMethodType`). -/
inductive PaymentMethodType
  | card
  | payLater
  | wallet
  | bankTransfer
deriving Repr, DecidableEq

/-- Mandate transaction type (`api::MandateTxnType`). -/
inductive MandateTxnType
  | newMandateTxn
  | recurringMandateTxn
deriving Repr, DecidableEq

/-- Setup-mandate details attached to a request (opaque payload). -/
structure MandateData where
  customer_acceptance : Option String
deriving Repr, DecidableEq

/-- A stored or requested address record; only `address_id` is inspected here. -/
structure Address where
  address_id : String
  line1 : Option String
  city : Option String
deriving Repr, DecidableEq

/-- Merchant-level payment header (`storage::PaymentIntent`). -/
structure PaymentIntent where
  payment_id : String
  merchant_id : String
  status : IntentStatus
  amount : Int
  currency : Option String
  shipping_address_id : Option String
  billing_address_id : Option String
  client_secret : Option String
deriving Repr, DecidableEq

/-- One concrete execution attempt (`storage::PaymentAttempt`). -/
structure PaymentAttempt where
  payment_id : String
  merchant_id : String
  txn_id : String
  status : AttemptStatus
  amount : Int
  currency : Option String
  payment_method : Option PaymentMethodType
  authentication_type : Option AuthenticationType
deriving Repr, DecidableEq

/-- Connector response record keyed by (payment id, merchant id, txn id). -/
structure ConnectorResponse where
  payment_id : String
  merchant_id : String
  txn_id : String
deriving Repr, DecidableEq

/-- The resolved shipping/billing addresses of the working state. -/
structure PaymentAddress where
  shipping : Option Address
  billing : Option Address
deriving Repr, DecidableEq

/-- A refund entry of the working state (opaque). -/
structure Refund where
  refund_id : String
deriving Repr, DecidableEq

/-- The per-pipeline-run working state (`PaymentData`), without the phantom flow tag. -/
structure PaymentData where
  payment_intent : PaymentIntent
  payment_attempt : PaymentAttempt
  currency : String
  amount : Int
  connector_response : ConnectorResponse
  mandate_id : Option String
  setup_mandate : Option MandateData
  token : Option String
  address : PaymentAddress
  confirm : Option Bool
  payment_method_data : Option String
  force_sync : Option Bool
  refunds : List Refund
deriving Repr, DecidableEq

/-- Customer details extracted from the request by GetTracker. -/
structure CustomerDetails where
  customer_id : Option String
  name : Option String
  email : Option String
  phone : Option String
  phone_country_code : Option String
deriving Repr, DecidableEq

/-- Payment-id descriptor (`api::PaymentIdType`). -/
inductive PaymentIdType
  | paymentIntentId (id : String)
  | connectorTransactionId (id : String)
deriving Repr, DecidableEq

/-- The inbound payments request (`api::PaymentsRequest`), restricted to the
fields the embedded code reads. -/
structure PaymentsRequest where
  payment_id : Option PaymentIdType
  merchant_id : Option String
  client_secret : Option String
  confirm : Option Bool
  payment_method_data : Option String
  shipping : Option Address
  billing : Option Address
  customer_id : Option String
  name : Option String
  email : Option String
  phone : Option String
  phone_country_code : Option String
deriving Repr, DecidableEq

/-- Merchant account (`storage::MerchantAccount`), restricted to `merchant_id`. -/
structure MerchantAccount where
  merchant_id : String
deriving Repr, DecidableEq

/-- The uniform error envelope (`errors::ApiErrorResponse`), restricted to the
variants the embedded code produces. -/
inductive ApiErrorResponse
  | paymentNotFound
  | clientSecretInvalid
  | invalidDataFormat (field_name : String) (expected_format : String)
  | missingRequiredField (field_name : String)
  | paymentFailed (code : Option String) (message : Option String)
  | internalServerError
deriving Repr, DecidableEq

/-- Whether an error is the normalized payment-failed response. -/
def ApiErrorResponse.is_payment_failed : ApiErrorResponse → Bool
  | .paymentFailed _ _ => true
  | _ => false

/-- Partial-update variant for a payment attempt
(`storage::PaymentAttemptUpdate`); Confirm uses `ConfirmUpdate`, which names
exactly the fields `status` and `payment_method`. -/
inductive PaymentAttemptUpdate
  | confirmUpdate (status : AttemptStatus) (payment_method : Option PaymentMethodType)
deriving Repr, DecidableEq

/-- Partial-update variant for a payment intent
(`storage::PaymentIntentUpdate`); Confirm uses `MerchantStatusUpdate`, which
names exactly the fields `status`, `shipping_address_id` and
`billing_address_id`. -/
inductive PaymentIntentUpdate
  | merchantStatusUpdate (status : IntentStatus) (shipping_address_id : Option String)
      (billing_address_id : Option String)
deriving Repr, DecidableEq

/-- One observable repository access or connector call made by the embedded code. -/
inductive DbEvent
  | findPaymentIntent (payment_id : String) (merchant_id : String)
  | findPaymentAttempt (payment_id : String) (merchant_id : String)
  | findConnectorResponse (payment_id : String) (merchant_id : String) (txn_id : String)
  | updatePaymentAttempt (update : PaymentAttemptUpdate)
  | updatePaymentIntent (update : PaymentIntentUpdate)
  | connectorCall
deriving Repr, DecidableEq

/-- Whether an event is a persistence write or a connector call (as opposed to
a pure repository read). -/
def DbEvent.isMutationOrConnectorCall : DbEvent → Bool
  | .updatePaymentAttempt _ => true
  | .updatePaymentIntent _ => true
  | .connectorCall => true
  | _ => false

/-- Modelled from the spec: `api::PaymentIdType::get_payment_intent_id` (not
under src/) resolves the descriptor to a concrete payment intent id, failing
(after `change_context`, with the payment-not-found error) on a descriptor
that does not carry an intent id. -/
def PaymentIdType.get_payment_intent_id : PaymentIdType → Except ApiErrorResponse String
  | .paymentIntentId id => .ok id
  | .connectorTransactionId _ => .error .paymentNotFound

/-- Modelled from the spec: `utils::OptionExt::get_required_value` (not under
src/) returns the contained value, or fails with a missing-required-value
error naming the field. -/
def get_required_value {α : Type} (v : Option α) (field_name : String) :
    Except ApiErrorResponse α :=
  match v with
  | some x => .ok x
  | none => .error (.missingRequiredField field_name)

/-- The client-secret comparison of Confirm's GetTracker, lines 66-72 of
`payment_confirm.rs`: only when the request and the stored intent both carry
a client secret are the two compared, and inequality is the
client-secret-invalid error. -/
def confirm_client_secret_check (request_client_secret : Option String)
    (intent_client_secret : Option String) : Except ApiErrorResponse Unit :=
  match request_client_secret with
  | some req_cs =>
    match intent_client_secret with
    | some pi_cs => if req_cs ≠ pi_cs then .error .clientSecretInvalid else .ok ()
    | none => .ok ()
  | none => .ok ()

/-- The payment-method assignment of Confirm's GetTracker, lines 80-82 of
`payment_confirm.rs` (performed twice there): the request-derived value wins
when supplied, otherwise the stored value is kept. -/
def set_payment_method_from_request (payment_method_type : Option PaymentMethodType)
    (attempt : PaymentAttempt) : PaymentAttempt :=
  { attempt with payment_method := payment_method_type.or attempt.payment_method }

/-- Environment of Confirm's GetTracker: the repository lookups and the
helpers that live outside the embedded file. -/
structure ConfirmEnv where
  get_token_pm_type_mandate_details :
    PaymentsRequest → Option MandateTxnType → String →
      Except ApiErrorResponse (Option String × Option PaymentMethodType × Option MandateData)
  find_payment_intent_by_payment_id_merchant_id : String → String → Option PaymentIntent
  find_payment_attempt_by_payment_id_merchant_id : String → String → Option PaymentAttempt
  find_connector_response_by_payment_id_merchant_id_txn_id :
    String → String → String → Option ConnectorResponse
  get_address_for_payment_request :
    Option Address → Option String → Except ApiErrorResponse (Option Address)

/-- Confirm's GetTracker stage (`PaymentConfirm::get_trackers`), returned
together with the trace of repository accesses it performed. -/
def get_trackers (env : ConfirmEnv) (payment_id_type : PaymentIdType) (merchant_id : String)
    (request : PaymentsRequest) (mandate_type : Option MandateTxnType) :
    Except ApiErrorResponse (PaymentData × Option CustomerDetails) × List DbEvent :=
  match payment_id_type.get_payment_intent_id with
  | .error _ => (.error .paymentNotFound, [])
  | .ok payment_id =>
    match env.get_token_pm_type_mandate_details request mandate_type merchant_id with
    | .error e => (.error e, [])
    | .ok (token, payment_method_type, setup_mandate) =>
      match env.find_payment_intent_by_payment_id_merchant_id payment_id merchant_id with
      | none => (.error .paymentNotFound, [.findPaymentIntent payment_id merchant_id])
      | some payment_intent =>
        match confirm_client_secret_check request.client_secret payment_intent.client_secret with
        | .error e => (.error e, [.findPaymentIntent payment_id merchant_id])
        | .ok _ =>
          match env.find_payment_attempt_by_payment_id_merchant_id payment_id merchant_id with
          | none =>
            (.error .paymentNotFound,
              [.findPaymentIntent payment_id merchant_id,
                .findPaymentAttempt payment_id merchant_id])
          | some payment_attempt0 =>
            let payment_attempt1 :=
              set_payment_method_from_request payment_method_type payment_attempt0
            let payment_attempt :=
              set_payment_method_from_request payment_method_type payment_attempt1
            match get_required_value payment_attempt.currency "currency" with
            | .error e =>
              (.error e,
                [.findPaymentIntent payment_id merchant_id,
                  .findPaymentAttempt payment_id merchant_id])
            | .ok currency =>
              let amount := payment_attempt.amount
              match env.find_connector_response_by_payment_id_merchant_id_txn_id
                  payment_attempt.payment_id payment_attempt.merchant_id
                  payment_attempt.txn_id with
              | none =>
                (.error .paymentNotFound,
                  [.findPaymentIntent payment_id merchant_id,
                    .findPaymentAttempt payment_id merchant_id,
                    .findConnectorResponse payment_attempt.payment_id
                      payment_attempt.merchant_id payment_attempt.txn_id])
              | some connector_response =>
                match env.get_address_for_payment_request request.shipping
                    payment_intent.shipping_address_id with
                | .error e =>
                  (.error e,
                    [.findPaymentIntent payment_id merchant_id,
                      .findPaymentAttempt payment_id merchant_id,
                      .findConnectorResponse payment_attempt.payment_id
                        payment_attempt.merchant_id payment_attempt.txn_id])
                | .ok shipping_address =>
                  match env.get_address_for_payment_request request.billing
                      payment_intent.billing_address_id with
                  | .error e =>
                    (.error e,
                      [.findPaymentIntent payment_id merchant_id,
                        .findPaymentAttempt payment_id merchant_id,
                        .findConnectorResponse payment_attempt.payment_id
                          payment_attempt.merchant_id payment_attempt.txn_id])
                  | .ok billing_address =>
                    let payment_intent2 :=
                      { payment_intent with
                        shipping_address_id := Option.map Address.address_id shipping_address,
                        billing_address_id := Option.map Address.address_id billing_address }
                    let events :=
                      [DbEvent.findPaymentIntent payment_id merchant_id,
                        DbEvent.findPaymentAttempt payment_id merchant_id,
                        DbEvent.findConnectorResponse payment_attempt.payment_id
                          payment_attempt.merchant_id payment_attempt.txn_id]
                    match payment_intent2.status with
                    | .succeeded | .failed =>
                      (.error (.invalidDataFormat "payment_id"
                          "payment_id of pending payment"), events)
                    | _ =>
                      (.ok
                        ({ payment_intent := payment_intent2
                           payment_attempt := payment_attempt
                           currency := currency
                           amount := amount
                           connector_response := connector_response
                           mandate_id := none
                           setup_mandate := setup_mandate
                           token := token
                           address :=
                             { shipping := shipping_address, billing := billing_address }
                           confirm := request.confirm
                           payment_method_data := request.payment_method_data
                           force_sync := none
                           refunds := [] },
                          some
                            { customer_id := request.customer_id
                              name := request.name
                              email := request.email
                              phone := request.phone
                              phone_country_code := request.phone_country_code }),
                        events)

/-- The status-transition table of Confirm's UpdateTracker, lines 167-177 of
`payment_confirm.rs`. -/
def confirm_status_transition (authentication_type : Option AuthenticationType) :
    IntentStatus × AttemptStatus :=
  match authentication_type with
  | some .noThreeDs => (.processing, .pending)
  | _ => (.requiresCustomerAction, .pendingVbv)

/-- Modelled from the spec: the repository's `update_attempt` (not under src/)
applies a partial-update variant, changing exactly the fields the variant
names and never replacing the full row. -/
def apply_payment_attempt_update (attempt : PaymentAttempt) :
    PaymentAttemptUpdate → PaymentAttempt
  | .confirmUpdate status payment_method =>
    { attempt with status := status, payment_method := payment_method }

/-- Modelled from the spec: the repository's `update_intent` (not under src/)
applies a partial-update variant, changing exactly the fields the variant
names and never replacing the full row. -/
def apply_payment_intent_update (intent : PaymentIntent) :
    PaymentIntentUpdate → PaymentIntent
  | .merchantStatusUpdate status shipping_address_id billing_address_id =>
    { intent with
      status := status,
      shipping_address_id := shipping_address_id,
      billing_address_id := billing_address_id }

/-- Environment of Confirm's UpdateTracker: whether each keyed update finds
its row (the repository update fails with a not-found error otherwise). -/
structure UpdateEnv where
  attempt_row_present : Bool
  intent_row_present : Bool

/-- Confirm's UpdateTracker stage (`PaymentConfirm::update_trackers`),
returned together with the trace of repository writes it performed. -/
def update_trackers (env : UpdateEnv) (payment_data : PaymentData) :
    Except ApiErrorResponse PaymentData × List DbEvent :=
  let payment_method := payment_data.payment_attempt.payment_method
  let statuses := confirm_status_transition payment_data.payment_attempt.authentication_type
  let intent_status := statuses.1
  let attempt_status := statuses.2
  let attempt_update := PaymentAttemptUpdate.confirmUpdate attempt_status payment_method
  if env.attempt_row_present then
    let payment_data1 :=
      { payment_data with
        payment_attempt :=
          apply_payment_attempt_update payment_data.payment_attempt attempt_update }
    let shipping_address := payment_data1.payment_intent.shipping_address_id
    let billing_address := payment_data1.payment_intent.billing_address_id
    let intent_update :=
      PaymentIntentUpdate.merchantStatusUpdate intent_status shipping_address billing_address
    if env.intent_row_present then
      let payment_data2 :=
        { payment_data1 with
          payment_intent :=
            apply_payment_intent_update payment_data1.payment_intent intent_update }
      (.ok payment_data2,
        [.updatePaymentAttempt attempt_update, .updatePaymentIntent intent_update])
    else
      (.error .paymentNotFound,
        [.updatePaymentAttempt attempt_update, .updatePaymentIntent intent_update])
  else
    (.error .paymentNotFound, [.updatePaymentAttempt attempt_update])

/-- Modelled from the spec: `helpers::validate_merchant_id` (not under src/)
verifies that a merchant id supplied in the request matches the merchant
account (succeeding when the request supplies none); the caller's
`change_context` turns a mismatch into the invalid-data-format validation
error shown here. -/
def validate_merchant_id (account_merchant_id : String)
    (request_merchant_id : Option String) : Except ApiErrorResponse Unit :=
  match request_merchant_id with
  | none => .ok ()
  | some m =>
    if m = account_merchant_id then .ok ()
    else .error (.invalidDataFormat "merchant_id" "merchant_id from merchant account")

/-- Modelled from the spec: `core_utils::get_or_generate_id` (not under src/)
returns the given id when present, otherwise generates a fresh id carrying
the given prefix. -/
def get_or_generate_id (given_id : Option String) (pfx : String) (fresh : String) :
    Except ApiErrorResponse String :=
  match given_id with
  | some id => .ok id
  | none => .ok (pfx ++ "_" ++ fresh)

/-- Environment of Confirm's ValidateRequest: the mandate validation helper
(outside the embedded file) and the fresh id used when the request carries
no payment id. -/
structure ValidateEnv where
  validate_mandate : PaymentsRequest → Except ApiErrorResponse (Option MandateTxnType)
  fresh_id : String

/-- Confirm's ValidateRequest stage (`PaymentConfirm::validate_request`),
returned together with its (always empty) trace of repository accesses. -/
def validate_request (env : ValidateEnv) (request : PaymentsRequest)
    (merchant_account : MerchantAccount) :
    Except ApiErrorResponse (String × PaymentIdType × Option MandateTxnType) × List DbEvent :=
  let given :=
    match request.payment_id with
    | some id_type => Except.map some id_type.get_payment_intent_id
    | none => .ok none
  match given with
  | .error _ => (.error .paymentNotFound, [])
  | .ok given_payment_id =>
    match validate_merchant_id merchant_account.merchant_id request.merchant_id with
    | .error e => (.error e, [])
    | .ok _ =>
      match env.validate_mandate request with
      | .error e => (.error e, [])
      | .ok mandate_type =>
        match get_or_generate_id given_payment_id "pay" env.fresh_id with
        | .error e => (.error e, [])
        | .ok payment_id =>
          (.ok (merchant_account.merchant_id, .paymentIntentId payment_id, mandate_type),
            [])

/-- Normalized connector-side failure (`errors::ConnectorError`), restricted
to representative variants. -/
inductive ConnectorError
  | requestTimeout
  | responseDeserializationFailed
  | failedStatus (code : String) (message : String)
  | requestEncodingFailed
deriving Repr, DecidableEq

/-- Modelled from the spec: `ConnectorErrorExt::to_payment_failed_response`
(not under src/) normalizes every connector error into the payment-failed
response, carrying connector-supplied code and message when available. -/
def ConnectorError.to_payment_failed_response : ConnectorError → ApiErrorResponse
  | .failedStatus code message => .paymentFailed (some code) (some message)
  | _ => .paymentFailed none none

/-- Call action given to the dispatcher (`payments::CallConnectorAction`). -/
inductive CallConnectorAction
  | trigger
  | avoid
deriving Repr, DecidableEq

/-- Flow invocation record of the Cancel flow (`PaymentRouterCancelData`),
restricted to representative fields. -/
structure PaymentRouterCancelData where
  payment_id : String
  merchant_id : String
  connector_transaction_id : String
  cancellation_reason : Option String
deriving Repr, DecidableEq

/-- Environment of the Cancel flow: the connector execution engine
(`services::execute_connector_processing_step`, outside the embedded file). -/
structure CancelEnv where
  execute_connector_processing_step :
    PaymentRouterCancelData → CallConnectorAction →
      Except ConnectorError PaymentRouterCancelData

/-- `PaymentRouterCancelData::decide_flow`: runs the connector execution step
and normalizes any connector error into the payment-failed response. -/
def decide_flow (env : CancelEnv) (router_data : PaymentRouterCancelData)
    (call_connector_action : CallConnectorAction) :
    Except ApiErrorResponse PaymentRouterCancelData :=
  match env.execute_connector_processing_step router_data call_connector_action with
  | .error e => .error e.to_payment_failed_response
  | .ok resp => .ok resp

/-- The Cancel flow's `decide_flows`: delegates to `decide_flow` and pairs the
result with the working state, which is returned unconditionally. -/
def decide_flows (env : CancelEnv) (router_data : PaymentRouterCancelData)
    (payment_data : PaymentData) (call_connector_action : CallConnectorAction) :
    Except ApiErrorResponse PaymentRouterCancelData × PaymentData :=
  (decide_flow env router_data call_connector_action, payment_data)

/-! Concrete sample data used to instantiate the theorems below. -/

/-- A stored intent that has already reached the terminal `succeeded` status. -/
def intentTerminalW : PaymentIntent :=
  { payment_id := "pay_1", merchant_id := "m_1", status := .succeeded,
    amount := 100, currency := some "USD", shipping_address_id := none,
    billing_address_id := none, client_secret := some "cs_1" }

/-- A stored intent still awaiting confirmation. -/
def intentOkW : PaymentIntent :=
  { intentTerminalW with status := .requiresConfirmation }

/-- A stored intent that carries no client secret. -/
def intentNoCsW : PaymentIntent :=
  { intentOkW with client_secret := none }

/-- A stored attempt with a concrete currency and no-3DS authentication. -/
def attemptW : PaymentAttempt :=
  { payment_id := "pay_1", merchant_id := "m_1", txn_id := "txn_1",
    status := .started, amount := 100, currency := some "USD",
    payment_method := some .card, authentication_type := some .noThreeDs }

/-- A stored attempt whose currency column is empty. -/
def attemptNoCurW : PaymentAttempt :=
  { attemptW with currency := none }

/-- A stored connector response row for the sample attempt. -/
def crW : ConnectorResponse :=
  { payment_id := "pay_1", merchant_id := "m_1", txn_id := "txn_1" }

/-- A confirm request supplying no client secret and no overriding merchant id. -/
def requestW : PaymentsRequest :=
  { payment_id := some (.paymentIntentId "pay_1"), merchant_id := none,
    client_secret := none, confirm := some true, payment_method_data := none,
    shipping := none, billing := none, customer_id := some "c_1", name := none,
    email := none, phone := none, phone_country_code := none }

/-- The same request carrying a client secret that differs from the stored one. -/
def requestBadCsW : PaymentsRequest :=
  { requestW with client_secret := some "cs_bad" }

/-- The same request carrying a merchant id different from the account's. -/
def requestMismatchW : PaymentsRequest :=
  { requestW with merchant_id := some "m_2" }

/-- A GetTracker environment whose stored intent is terminal. -/
def envTerminalW : ConfirmEnv :=
  { get_token_pm_type_mandate_details := fun _ _ _ => .ok (none, none, none),
    find_payment_intent_by_payment_id_merchant_id := fun _ _ => some intentTerminalW,
    find_payment_attempt_by_payment_id_merchant_id := fun _ _ => some attemptW,
    find_connector_response_by_payment_id_merchant_id_txn_id := fun _ _ _ => some crW,
    get_address_for_payment_request := fun _ _ => .ok none }

/-- A GetTracker environment whose stored intent is still confirmable. -/
def envOkW : ConfirmEnv :=
  { envTerminalW with
    find_payment_intent_by_payment_id_merchant_id := fun _ _ => some intentOkW }

/-- A GetTracker environment whose stored intent carries no client secret. -/
def envNoCsW : ConfirmEnv :=
  { envTerminalW with
    find_payment_intent_by_payment_id_merchant_id := fun _ _ => some intentNoCsW }

/-- A GetTracker environment whose stored attempt has no currency. -/
def envNoCurW : ConfirmEnv :=
  { envOkW with
    find_payment_attempt_by_payment_id_merchant_id := fun _ _ => some attemptNoCurW }

/-- An UpdateTracker environment in which both keyed rows exist. -/
def updEnvW : UpdateEnv :=
  { attempt_row_present := true, intent_row_present := true }

/-- A working state entering UpdateTracker, built over the sample rows. -/
def pdW : PaymentData :=
  { payment_intent := intentOkW, payment_attempt := attemptW, currency := "USD",
    amount := 100, connector_response := crW, mandate_id := none,
    setup_mandate := none, token := none,
    address := { shipping := none, billing := none }, confirm := some true,
    payment_method_data := none, force_sync := none, refunds := [] }

/-- The working state expected after Confirm's UpdateTracker on `pdW`. -/
def pd2W : PaymentData :=
  { pdW with
    payment_attempt := { attemptW with status := .pending, payment_method := some .card },
    payment_intent :=
      { intentOkW with
        status := .processing
        shipping_address_id := none
        billing_address_id := none } }

/-- The write trace expected from Confirm's UpdateTracker on `pdW`. -/
def updEventsW : List DbEvent :=
  [.updatePaymentAttempt (.confirmUpdate .pending (some .card)),
    .updatePaymentIntent (.merchantStatusUpdate .processing none none)]

/-- The customer details GetTracker extracts from `requestW`. -/
def cdResW : CustomerDetails :=
  { customer_id := some "c_1", name := none, email := none, phone := none,
    phone_country_code := none }

/-- The read trace of a complete GetTracker run over the sample rows. -/
def getEventsW : List DbEvent :=
  [.findPaymentIntent "pay_1" "m_1", .findPaymentAttempt "pay_1" "m_1",
    .findConnectorResponse "pay_1" "m_1" "txn_1"]

/-- A ValidateRequest environment with trivial mandate validation. -/
def valEnvW : ValidateEnv :=
  { validate_mandate := fun _ => .ok none, fresh_id := "abc123" }

/-- The merchant account the sample requests are validated against. -/
def accW : MerchantAccount :=
  { merchant_id := "m_1" }

/-- A flow invocation record for the Cancel flow. -/
def rdW : PaymentRouterCancelData :=
  { payment_id := "pay_1", merchant_id := "m_1", connector_transaction_id := "txn_1",
    cancellation_reason := none }

/-- A Cancel environment whose connector call times out. -/
def cancelEnvW : CancelEnv :=
  { execute_connector_processing_step := fun _ _ => .error .requestTimeout }

/-- C6: In Confirm's GetTracker the attempt's payment_method field is set by
the precedence rule — the request-derived value when supplied, otherwise the
stored value — and the assignment is idempotent: executing it twice, as the
source does, yields exactly the same attempt as executing it once. -/
theorem confirm_payment_method_assignment_idempotent
    (payment_method_type : Option PaymentMethodType) (attempt : PaymentAttempt) :
    set_payment_method_from_request payment_method_type
        (set_payment_method_from_request payment_method_type attempt)
      = set_payment_method_from_request payment_method_type attempt
    ∧ (set_payment_method_from_request payment_method_type attempt).payment_method
      = (match payment_method_type with
          | some p => some p
          | none => attempt.payment_method) := by
  cases payment_method_type <;> cases attempt <;>
    simp [set_payment_method_from_request, Option.or]

/-- C3: For every connector outcome, the Cancel flow's decide_flows returns
the working state unchanged paired with the result, and every error coming
out of the connector execution step is normalized into the payment-failed
response — a failed connector call is never fatal to the pipeline. -/
theorem cancel_decide_flows_state_and_normalization
    (env : CancelEnv) (router_data : PaymentRouterCancelData)
    (payment_data : PaymentData) (action : CallConnectorAction) :
    (decide_flows env router_data payment_data action).2 = payment_data
    ∧ (∀ resp, env.execute_connector_processing_step router_data action = .ok resp →
        (decide_flows env router_data payment_data action).1 = .ok resp)
    ∧ (∀ e, env.execute_connector_processing_step router_data action = .error e →
        (decide_flows env router_data payment_data action).1
            = .error e.to_payment_failed_response
          ∧ (ConnectorError.to_payment_failed_response e).is_payment_failed = true) := by
  refine ⟨rfl, ?_, ?_⟩
  · intro resp h
    simp [decide_flows, decide_flow, h]
  · intro e h
    refine ⟨by simp [decide_flows, decide_flow, h], ?_⟩
    cases e <;>
      simp [ConnectorError.to_payment_failed_response, ApiErrorResponse.is_payment_failed]

/-- C3 witness: at a connector environment whose call times out, the working
state comes back unchanged and the result is the payment-failed response. -/
theorem cancel_decide_flows_state_and_normalization_witness :
    (decide_flows cancelEnvW rdW pdW .trigger).2 = pdW
    ∧ (decide_flows cancelEnvW rdW pdW .trigger).1
        = .error (ConnectorError.requestTimeout.to_payment_failed_response)
    ∧ (ConnectorError.requestTimeout.to_payment_failed_response).is_payment_failed = true :=
  ⟨(cancel_decide_flows_state_and_normalization cancelEnvW rdW pdW .trigger).1,
    ((cancel_decide_flows_state_and_normalization cancelEnvW rdW pdW .trigger).2.2
      .requestTimeout rfl).1,
    ((cancel_decide_flows_state_and_normalization cancelEnvW rdW pdW .trigger).2.2
      .requestTimeout rfl).2⟩

/-- C2: Confirm's UpdateTracker status transition is total and matches the
table: Some NoThreeDs persists (intent=Processing, attempt=Pending), every
other authentication-type value (including None) persists
(intent=RequiresCustomerAction, attempt=PendingVbv), and no other pair is
ever produced. -/
theorem confirm_update_status_transition
    (env : UpdateEnv) (payment_data payment_data2 : PaymentData) (events : List DbEvent)
    (h : update_trackers env payment_data = (.ok payment_data2, events)) :
    (payment_data.payment_attempt.authentication_type = some .noThreeDs →
      payment_data2.payment_intent.status = .processing
      ∧ payment_data2.payment_attempt.status = .pending)
    ∧ (payment_data.payment_attempt.authentication_type ≠ some .noThreeDs →
      payment_data2.payment_intent.status = .requiresCustomerAction
      ∧ payment_data2.payment_attempt.status = .pendingVbv)
    ∧ ((payment_data2.payment_intent.status, payment_data2.payment_attempt.status)
          = (.processing, .pending)
        ∨ (payment_data2.payment_intent.status, payment_data2.payment_attempt.status)
          = (.requiresCustomerAction, .pendingVbv)) := by
  cases hA : env.attempt_row_present <;> cases hB : env.intent_row_present <;>
    simp [update_trackers, hA, hB, apply_payment_attempt_update,
      apply_payment_intent_update] at h
  obtain ⟨h1, h2⟩ := h
  subst h1
  rcases hat : payment_data.payment_attempt.authentication_type with _ | t
  · simp [confirm_status_transition, hat]
  · cases t <;> simp [confirm_status_transition, hat]

/-- C2 witness: on the sample no-3DS working state, UpdateTracker persists
intent=Processing and attempt=Pending. -/
theorem confirm_update_status_transition_witness :
    pd2W.payment_intent.status = .processing
    ∧ pd2W.payment_attempt.status = .pending :=
  (confirm_update_status_transition updEnvW pdW pd2W updEventsW rfl).1 rfl

/-- C5: Confirm's UpdateTracker writes only the two named partial-update
variants — ConfirmUpdate naming exactly status and payment_method for the
attempt and MerchantStatusUpdate naming exactly status,
shipping_address_id and billing_address_id for the intent — leaves every
other attempt/intent field unchanged, and returns the mutated working
state. -/
theorem confirm_update_partial_fields
    (env : UpdateEnv) (payment_data payment_data2 : PaymentData) (events : List DbEvent)
    (h : update_trackers env payment_data = (.ok payment_data2, events)) :
    events =
      [.updatePaymentAttempt
          (.confirmUpdate
            (confirm_status_transition payment_data.payment_attempt.authentication_type).2
            payment_data.payment_attempt.payment_method),
        .updatePaymentIntent
          (.merchantStatusUpdate
            (confirm_status_transition payment_data.payment_attempt.authentication_type).1
            payment_data.payment_intent.shipping_address_id
            payment_data.payment_intent.billing_address_id)]
    ∧ payment_data2 =
      { payment_data with
        payment_attempt :=
          apply_payment_attempt_update payment_data.payment_attempt
            (.confirmUpdate
              (confirm_status_transition payment_data.payment_attempt.authentication_type).2
              payment_data.payment_attempt.payment_method),
        payment_intent :=
          apply_payment_intent_update payment_data.payment_intent
            (.merchantStatusUpdate
              (confirm_status_transition payment_data.payment_attempt.authentication_type).1
              payment_data.payment_intent.shipping_address_id
              payment_data.payment_intent.billing_address_id) }
    ∧ payment_data2.payment_attempt.payment_id = payment_data.payment_attempt.payment_id
    ∧ payment_data2.payment_attempt.merchant_id = payment_data.payment_attempt.merchant_id
    ∧ payment_data2.payment_attempt.txn_id = payment_data.payment_attempt.txn_id
    ∧ payment_data2.payment_attempt.amount = payment_data.payment_attempt.amount
    ∧ payment_data2.payment_attempt.currency = payment_data.payment_attempt.currency
    ∧ payment_data2.payment_attempt.authentication_type
        = payment_data.payment_attempt.authentication_type
    ∧ payment_data2.payment_intent.payment_id = payment_data.payment_intent.payment_id
    ∧ payment_data2.payment_intent.merchant_id = payment_data.payment_intent.merchant_id
    ∧ payment_data2.payment_intent.amount = payment_data.payment_intent.amount
    ∧ payment_data2.payment_intent.currency = payment_data.payment_intent.currency
    ∧ payment_data2.payment_intent.client_secret
        = payment_data.payment_intent.client_secret := by
  cases hA : env.attempt_row_present <;> cases hB : env.intent_row_present <;>
    simp [update_trackers, hA, hB] at h
  obtain ⟨h1, h2⟩ := h
  subst h1
  subst h2
  simp [apply_payment_attempt_update, apply_payment_intent_update]

/-- C5 witness: the write trace of UpdateTracker on the sample working state
is exactly the two named partial-update variants. -/
theorem confirm_update_partial_fields_witness :
    updEventsW =
      [.updatePaymentAttempt
          (.confirmUpdate
            (confirm_status_transition pdW.payment_attempt.authentication_type).2
            pdW.payment_attempt.payment_method),
        .updatePaymentIntent
          (.merchantStatusUpdate
            (confirm_status_transition pdW.payment_attempt.authentication_type).1
            pdW.payment_intent.shipping_address_id
            pdW.payment_intent.billing_address_id)] :=
  (confirm_update_partial_fields updEnvW pdW pd2W updEventsW rfl).1

/-- C1: For every payment intent whose status is Succeeded or Failed,
Confirm's GetTracker fails with the terminal-state validation error (once
the preceding loads succeed), and its repository trace contains no
persistence write and no connector call. -/
theorem confirm_terminal_intent_rejected
    (env : ConfirmEnv) (payment_id merchant_id : String) (request : PaymentsRequest)
    (mandate_type : Option MandateTxnType) (intent : PaymentIntent)
    (token : Option String) (payment_method_type : Option PaymentMethodType)
    (setup_mandate : Option MandateData) (attempt : PaymentAttempt) (currency : String)
    (connector_response : ConnectorResponse)
    (shipping_address billing_address : Option Address)
    (htok : env.get_token_pm_type_mandate_details request mandate_type merchant_id
      = .ok (token, payment_method_type, setup_mandate))
    (hintent : env.find_payment_intent_by_payment_id_merchant_id payment_id merchant_id
      = some intent)
    (hterm : intent.status = .succeeded ∨ intent.status = .failed)
    (hcs : confirm_client_secret_check request.client_secret intent.client_secret = .ok ())
    (hatt : env.find_payment_attempt_by_payment_id_merchant_id payment_id merchant_id
      = some attempt)
    (hcur : attempt.currency = some currency)
    (hcr : env.find_connector_response_by_payment_id_merchant_id_txn_id attempt.payment_id
        attempt.merchant_id attempt.txn_id = some connector_response)
    (hship : env.get_address_for_payment_request request.shipping intent.shipping_address_id
      = .ok shipping_address)
    (hbill : env.get_address_for_payment_request request.billing intent.billing_address_id
      = .ok billing_address) :
    (get_trackers env (.paymentIntentId payment_id) merchant_id request mandate_type).1
      = .error (.invalidDataFormat "payment_id" "payment_id of pending payment")
    ∧ ∀ ev ∈ (get_trackers env (.paymentIntentId payment_id) merchant_id request
        mandate_type).2, ev.isMutationOrConnectorCall = false := by
  rcases hterm with hterm | hterm <;>
    simp [get_trackers, PaymentIdType.get_payment_intent_id, htok, hintent, hcs, hatt,
      set_payment_method_from_request, get_required_value, hcur, hcr, hship, hbill, hterm,
      DbEvent.isMutationOrConnectorCall]

/-- C1 witness: a terminal (succeeded) stored intent is rejected with the
terminal-state validation error and the trace holds only reads. -/
theorem confirm_terminal_intent_rejected_witness :
    (get_trackers envTerminalW (.paymentIntentId "pay_1") "m_1" requestW none).1
      = .error (.invalidDataFormat "payment_id" "payment_id of pending payment")
    ∧ ∀ ev ∈ (get_trackers envTerminalW (.paymentIntentId "pay_1") "m_1" requestW none).2,
        ev.isMutationOrConnectorCall = false :=
  confirm_terminal_intent_rejected envTerminalW "pay_1" "m_1" requestW none intentTerminalW
    none none none attemptW "USD" crW none none rfl rfl (Or.inl rfl) rfl rfl rfl rfl rfl rfl

/-- C4: When the request's and the stored intent's client secrets are both
present and unequal, Confirm's GetTracker fails with the client-secret
invalid error, and before the payment attempt record is loaded or mutated:
the repository trace stops at the intent read. -/
theorem confirm_client_secret_mismatch_fails_early
    (env : ConfirmEnv) (payment_id merchant_id : String) (request : PaymentsRequest)
    (mandate_type : Option MandateTxnType) (intent : PaymentIntent)
    (token : Option String) (payment_method_type : Option PaymentMethodType)
    (setup_mandate : Option MandateData) (req_cs pi_cs : String)
    (htok : env.get_token_pm_type_mandate_details request mandate_type merchant_id
      = .ok (token, payment_method_type, setup_mandate))
    (hintent : env.find_payment_intent_by_payment_id_merchant_id payment_id merchant_id
      = some intent)
    (hreq : request.client_secret = some req_cs)
    (hpi : intent.client_secret = some pi_cs)
    (hne : req_cs ≠ pi_cs) :
    get_trackers env (.paymentIntentId payment_id) merchant_id request mandate_type
      = (.error .clientSecretInvalid, [.findPaymentIntent payment_id merchant_id])
    ∧ ∀ pid mid, DbEvent.findPaymentAttempt pid mid
        ∉ (get_trackers env (.paymentIntentId payment_id) merchant_id request
            mandate_type).2 := by
  have hchk : confirm_client_secret_check request.client_secret intent.client_secret
      = .error .clientSecretInvalid := by
    simp [confirm_client_secret_check, hreq, hpi, hne]
  constructor
  · simp [get_trackers, PaymentIdType.get_payment_intent_id, htok, hintent, hchk]
  · intro pid mid
    simp [get_trackers, PaymentIdType.get_payment_intent_id, htok, hintent, hchk]

/-- C4 witness: a request carrying a wrong client secret is rejected with the
client-secret-invalid error and only the intent read appears in the trace. -/
theorem confirm_client_secret_mismatch_fails_early_witness :
    get_trackers envOkW (.paymentIntentId "pay_1") "m_1" requestBadCsW none
      = (.error .clientSecretInvalid, [.findPaymentIntent "pay_1" "m_1"])
    ∧ ∀ pid mid, DbEvent.findPaymentAttempt pid mid
        ∉ (get_trackers envOkW (.paymentIntentId "pay_1") "m_1" requestBadCsW none).2 :=
  confirm_client_secret_mismatch_fails_early envOkW "pay_1" "m_1" requestBadCsW none
    intentOkW none none none "cs_bad" "cs_1" rfl rfl rfl rfl (by decide)

/-- Inversion of a successful GetTracker run: the working state's attempt is
the stored attempt after the payment-method assignment, and the working
state's amount and currency come from the stored attempt. -/
theorem get_trackers_ok_attempt_inversion
    (env : ConfirmEnv) (payment_id merchant_id : String) (request : PaymentsRequest)
    (mandate_type : Option MandateTxnType) (payment_data : PaymentData)
    (customer : Option CustomerDetails) (events : List DbEvent)
    (h : get_trackers env (.paymentIntentId payment_id) merchant_id request mandate_type
      = (.ok (payment_data, customer), events)) :
    ∃ stored payment_method_type,
      env.find_payment_attempt_by_payment_id_merchant_id payment_id merchant_id
        = some stored
      ∧ payment_data.payment_attempt
          = set_payment_method_from_request payment_method_type
              (set_payment_method_from_request payment_method_type stored)
      ∧ payment_data.amount = stored.amount
      ∧ stored.currency = some payment_data.currency
      ∧ payment_data.payment_attempt.amount = stored.amount
      ∧ payment_data.payment_attempt.currency = stored.currency := by
  simp only [get_trackers, PaymentIdType.get_payment_intent_id] at h
  rcases htok : env.get_token_pm_type_mandate_details request mandate_type merchant_id
      with e | ⟨token, payment_method_type, setup_mandate⟩ <;>
    simp only [htok] at h
  · simp at h
  rcases hint : env.find_payment_intent_by_payment_id_merchant_id payment_id merchant_id
      with _ | payment_intent <;>
    simp only [hint] at h
  · simp at h
  rcases hcs : confirm_client_secret_check request.client_secret
      payment_intent.client_secret with e | u <;>
    simp only [hcs] at h
  · simp at h
  rcases hatt : env.find_payment_attempt_by_payment_id_merchant_id payment_id merchant_id
      with _ | payment_attempt0 <;>
    simp only [hatt] at h
  · simp at h
  simp only [set_payment_method_from_request, get_required_value] at h
  rcases hcur : payment_attempt0.currency with _ | currency0 <;>
    simp only [hcur] at h
  · simp at h
  rcases hcr : env.find_connector_response_by_payment_id_merchant_id_txn_id
      payment_attempt0.payment_id payment_attempt0.merchant_id payment_attempt0.txn_id
      with _ | connector_response <;>
    simp only [hcr] at h
  · simp at h
  rcases hship : env.get_address_for_payment_request request.shipping
      payment_intent.shipping_address_id with e | shipping_address <;>
    simp only [hship] at h
  · simp at h
  rcases hbill : env.get_address_for_payment_request request.billing
      payment_intent.billing_address_id with e | billing_address <;>
    simp only [hbill] at h
  · simp at h
  rcases hst : payment_intent.status <;> simp [hst] at h
  all_goals
    obtain ⟨⟨hpd, hcu⟩, hev⟩ := h
  all_goals
    subst hpd
  all_goals
    refine ⟨payment_attempt0, payment_method_type, rfl, ?_, ?_, ?_, ?_, ?_⟩ <;>
      simp [set_payment_method_from_request, hcur]

/-- C8: When Confirm's GetTracker succeeds, the working state carries the
amount and currency read from the stored payment attempt unchanged. -/
theorem confirm_get_trackers_amount_currency_roundtrip
    (env : ConfirmEnv) (payment_id merchant_id : String) (request : PaymentsRequest)
    (mandate_type : Option MandateTxnType) (stored : PaymentAttempt)
    (payment_data : PaymentData) (customer : Option CustomerDetails)
    (events : List DbEvent)
    (hstored : env.find_payment_attempt_by_payment_id_merchant_id payment_id merchant_id
      = some stored)
    (h : get_trackers env (.paymentIntentId payment_id) merchant_id request mandate_type
      = (.ok (payment_data, customer), events)) :
    payment_data.amount = stored.amount
    ∧ stored.currency = some payment_data.currency
    ∧ payment_data.payment_attempt.amount = stored.amount
    ∧ payment_data.payment_attempt.currency = stored.currency := by
  obtain ⟨stored0, pmt, hfind, hpa, hamount, hcurrency, hamount2, hcurrency2⟩ :=
    get_trackers_ok_attempt_inversion env payment_id merchant_id request mandate_type
      payment_data customer events h
  rw [hstored] at hfind
  simp only [Option.some.injEq] at hfind
  subst hfind
  exact ⟨hamount, hcurrency, hamount2, hcurrency2⟩

/-- C8 witness: on the sample rows, the successful GetTracker run returns the
stored attempt's amount and currency unchanged. -/
theorem confirm_get_trackers_amount_currency_roundtrip_witness :
    pdW.amount = attemptW.amount
    ∧ attemptW.currency = some pdW.currency
    ∧ pdW.payment_attempt.amount = attemptW.amount
    ∧ pdW.payment_attempt.currency = attemptW.currency :=
  confirm_get_trackers_amount_currency_roundtrip envOkW "pay_1" "m_1" requestW none
    attemptW pdW (some cdResW) getEventsW rfl rfl

/-- C10: Confirm's GetTracker fails with the missing-required-value error
whenever the loaded attempt's currency is None — no constraint on the
intent's status is needed, so this holds for non-terminal intents too — and
on every successful run the working state's currency is the concrete value
taken from the stored attempt. -/
theorem confirm_missing_currency_fails
    (env : ConfirmEnv) (payment_id merchant_id : String) (request : PaymentsRequest)
    (mandate_type : Option MandateTxnType) (intent : PaymentIntent)
    (token : Option String) (payment_method_type : Option PaymentMethodType)
    (setup_mandate : Option MandateData) (attempt : PaymentAttempt)
    (htok : env.get_token_pm_type_mandate_details request mandate_type merchant_id
      = .ok (token, payment_method_type, setup_mandate))
    (hintent : env.find_payment_intent_by_payment_id_merchant_id payment_id merchant_id
      = some intent)
    (hcs : confirm_client_secret_check request.client_secret intent.client_secret = .ok ())
    (hatt : env.find_payment_attempt_by_payment_id_merchant_id payment_id merchant_id
      = some attempt) :
    (attempt.currency = none →
      (get_trackers env (.paymentIntentId payment_id) merchant_id request mandate_type).1
        = .error (.missingRequiredField "currency"))
    ∧ ∀ payment_data customer events,
        get_trackers env (.paymentIntentId payment_id) merchant_id request mandate_type
          = (.ok (payment_data, customer), events) →
        attempt.currency = some payment_data.currency := by
  constructor
  · intro hnone
    simp [get_trackers, PaymentIdType.get_payment_intent_id, htok, hintent, hcs, hatt,
      set_payment_method_from_request, get_required_value, hnone]
  · intro payment_data customer events h
    obtain ⟨stored0, pmt, hfind, hpa, hamount, hcurrency, hamount2, hcurrency2⟩ :=
      get_trackers_ok_attempt_inversion env payment_id merchant_id request mandate_type
        payment_data customer events h
    rw [hatt] at hfind
    simp only [Option.some.injEq] at hfind
    subst hfind
    exact hcurrency

/-- C10 witness: on a stored attempt without a currency, GetTracker fails
with the missing-required-value error naming the currency field. -/
theorem confirm_missing_currency_fails_witness :
    (get_trackers envNoCurW (.paymentIntentId "pay_1") "m_1" requestW none).1
      = .error (.missingRequiredField "currency") :=
  (confirm_missing_currency_fails envNoCurW "pay_1" "m_1" requestW none intentOkW
    none none none attemptNoCurW rfl rfl rfl rfl).1 rfl

/-- C9: The client-secret comparison fires exactly when both secrets are
present and unequal — a missing stored secret or a missing request secret is
accepted — and when the stored intent carries no client secret, GetTracker
proceeds past the check and loads the payment attempt. -/
theorem confirm_client_secret_check_only_when_both_present
    (env : ConfirmEnv) (payment_id merchant_id : String) (request : PaymentsRequest)
    (mandate_type : Option MandateTxnType) (intent : PaymentIntent)
    (token : Option String) (payment_method_type : Option PaymentMethodType)
    (setup_mandate : Option MandateData)
    (htok : env.get_token_pm_type_mandate_details request mandate_type merchant_id
      = .ok (token, payment_method_type, setup_mandate))
    (hintent : env.find_payment_intent_by_payment_id_merchant_id payment_id merchant_id
      = some intent) :
    (∀ request_cs intent_cs : Option String,
        (confirm_client_secret_check request_cs intent_cs = .error .clientSecretInvalid
          ↔ ∃ r p, request_cs = some r ∧ intent_cs = some p ∧ r ≠ p)
        ∧ (intent_cs = none → confirm_client_secret_check request_cs intent_cs = .ok ())
        ∧ (request_cs = none → confirm_client_secret_check request_cs intent_cs = .ok ())
        ∧ ∀ e, confirm_client_secret_check request_cs intent_cs = .error e
            → e = .clientSecretInvalid)
    ∧ (intent.client_secret = none →
        DbEvent.findPaymentAttempt payment_id merchant_id
          ∈ (get_trackers env (.paymentIntentId payment_id) merchant_id request
              mandate_type).2) := by
  constructor
  · intro request_cs intent_cs
    rcases request_cs with _ | r
    · simp [confirm_client_secret_check]
    · rcases intent_cs with _ | p
      · simp [confirm_client_secret_check]
      · by_cases hrp : r = p <;> simp [confirm_client_secret_check, hrp]
  · intro hnone
    have hcs : confirm_client_secret_check request.client_secret none = .ok () := by
      rcases hq : request.client_secret with _ | r <;>
        simp [confirm_client_secret_check, hq]
    simp only [get_trackers, PaymentIdType.get_payment_intent_id, htok, hintent, hnone,
      hcs]
    repeat' split
    all_goals simp

/-- C9 witness: two differing present secrets are rejected, and a stored
intent with no client secret lets GetTracker proceed to the attempt load. -/
theorem confirm_client_secret_check_only_when_both_present_witness :
    confirm_client_secret_check (some "a") (some "b") = .error .clientSecretInvalid
    ∧ DbEvent.findPaymentAttempt "pay_1" "m_1"
        ∈ (get_trackers envNoCsW (.paymentIntentId "pay_1") "m_1" requestW none).2 := by
  have h := confirm_client_secret_check_only_when_both_present envNoCsW "pay_1" "m_1"
    requestW none intentNoCsW none none none rfl rfl
  exact ⟨(h.1 (some "a") (some "b")).1.mpr ⟨"a", "b", rfl, rfl, by decide⟩, h.2 rfl⟩

/-- C7: Confirm's ValidateRequest is local-only (its repository trace is
empty); a supplied merchant id differing from the account's fails with the
validation error; and with no payment id in the request it returns a
generated id carrying the "pay" prefix as the payment-id descriptor,
together with the account merchant id and the mandate type. -/
theorem confirm_validate_request_local_checks
    (env : ValidateEnv) (request : PaymentsRequest) (merchant_account : MerchantAccount) :
    (validate_request env request merchant_account).2 = []
    ∧ (∀ m id, request.merchant_id = some m → m ≠ merchant_account.merchant_id →
        (request.payment_id = none ∨ request.payment_id = some (.paymentIntentId id)) →
        (validate_request env request merchant_account).1
          = .error (.invalidDataFormat "merchant_id" "merchant_id from merchant account"))
    ∧ (∀ mandate_type, request.payment_id = none →
        validate_merchant_id merchant_account.merchant_id request.merchant_id = .ok () →
        env.validate_mandate request = .ok mandate_type →
        (validate_request env request merchant_account).1
          = .ok (merchant_account.merchant_id,
              .paymentIntentId ("pay" ++ "_" ++ env.fresh_id), mandate_type)) := by
  refine ⟨?_, ?_, ?_⟩
  · simp only [validate_request]
    repeat' split
    all_goals rfl
  · intro m id hm hne hpid
    rcases hpid with hpid | hpid <;>
      simp [validate_request, hpid, PaymentIdType.get_payment_intent_id, Except.map,
        validate_merchant_id, hm, hne]
  · intro mandate_type hpid hvm hmand
    simp [validate_request, hpid, hvm, hmand, get_or_generate_id]

/-- C7 witness: a request whose merchant id differs from the account's is
rejected with the validation error, with an empty repository trace. -/
theorem confirm_validate_request_local_checks_witness :
    (validate_request valEnvW requestMismatchW accW).1
      = .error (.invalidDataFormat "merchant_id" "merchant_id from merchant account")
    ∧ (validate_request valEnvW requestMismatchW accW).2 = [] :=
  ⟨(confirm_validate_request_local_checks valEnvW requestMismatchW accW).2.1 "m_2" "pay_1"
      rfl (by decide) (Or.inr rfl),
    (confirm_validate_request_local_checks valEnvW requestMismatchW accW).1⟩

end Hyperswitch
